import Mathlib

/-!
Verification of the Hospital Management System core against its
natural-language specification.

This file gives a shallow embedding of the parts of the repository that
the checked claims are about:

* the billing ledger (`app/models/billing.py`, `app/schemas/billing.py`,
  `app/routers/billing.py`): bill creation, bulk update, and discrete
  payment, with balance/status derivation;
* the authentication core (`app/core/auth.py`): password hashing through
  passlib, JWT issuance and verification;
* the authentication router (`app/routers/auth.py`): login and its
  change-password endpoint;
* the password router (`app/routers/password.py`): the self-service
  change-password flow and expiry bookkeeping on
  `app/models/user.py`'s `User`.

Modelling conventions:

* Monetary amounts (Python `float` columns) are modelled as exact
  rationals `ℚ`; quantities are `Int` (Python `int`).
* Timestamps are `Int` seconds since an arbitrary epoch; a Python
  `timedelta(days = d)` is `d * 86400` seconds and
  `timedelta(minutes = m)` is `m * 60` seconds.  The wall clock
  (`datetime.utcnow()`) is threaded explicitly as a `now` parameter.
* A FastAPI handler that may `raise HTTPException` is a function into
  `Except`; raising before any mutation leaves the store unchanged,
  which we make explicit by also defining the "resulting store"
  function for the payment endpoint.
* The external passlib `CryptContext` and python-jose `jwt` libraries
  are modelled from their documented contracts (see `PasslibCtx` and
  `jwtDecode`), parameterised so theorems quantify over any compliant
  implementation.
* Database sessions are association lists; `db.query(...).first()` is
  `find?`; `commit` of a mutated row writes it back by key.
-/

namespace HMS

/-- Decidable equality for handler outcomes (used to evaluate the
embedding at concrete inputs). -/
instance {ε α : Type} [DecidableEq ε] [DecidableEq α] : DecidableEq (Except ε α) :=
  fun x y =>
    match x, y with
    | .error a, .error b =>
        if h : a = b then isTrue (congrArg Except.error h)
        else isFalse (fun hc => h (Except.error.inj hc))
    | .ok a, .ok b =>
        if h : a = b then isTrue (congrArg Except.ok h)
        else isFalse (fun hc => h (Except.ok.inj hc))
    | .error _, .ok _ => isFalse (fun hc => Except.noConfusion hc)
    | .ok _, .error _ => isFalse (fun hc => Except.noConfusion hc)

/-- HTTP error raised by a handler: status code and detail string
(`fastapi.HTTPException`). -/
structure HTTPError where
  status_code : Nat
  detail : String
deriving DecidableEq, Repr

/-! ## Billing data model (`app/models/billing.py`, `app/schemas/billing.py`) -/

/-- `PaymentStatus` enum.  The source value `"partial"` is the
constructor `partPaid` here. -/
inductive PaymentStatus where
  | pending
  | paid
  | partPaid
  | cancelled
deriving DecidableEq, Repr

/-- `PaymentMethod` enum. -/
inductive PaymentMethod where
  | cash
  | credit_card
  | debit_card
  | insurance
  | bank_transfer
deriving DecidableEq, Repr

/-- Persistent `Bill` row (identity, bill number and timestamps omitted:
no claim mentions them). -/
structure Bill where
  patient_id : Int
  bill_date : Int
  due_date : Option Int
  total_amount : ℚ
  paid_amount : ℚ
  balance : ℚ
  status : PaymentStatus
  payment_method : Option PaymentMethod
  insurance_provider : Option String
  insurance_number : Option String
  insurance_coverage : ℚ
  notes : Option String
deriving DecidableEq, Repr

/-- Persistent `BillItem` row. -/
structure BillItem where
  description : String
  quantity : Int
  unit_price : ℚ
  total_price : ℚ
  item_type : Option String
deriving DecidableEq, Repr

/-- Request schema `BillItemCreate`. -/
structure BillItemCreate where
  description : String
  quantity : Int
  unit_price : ℚ
  item_type : Option String
deriving DecidableEq, Repr

/-- Request schema `BillCreate` (`BillBase` plus `items`).  Note that the
schema lets the client send `total_amount`, `paid_amount`, `balance`
and `status`. -/
structure BillCreate where
  patient_id : Int
  bill_date : Int
  due_date : Option Int
  total_amount : ℚ
  paid_amount : ℚ
  balance : ℚ
  status : PaymentStatus
  payment_method : Option PaymentMethod
  insurance_provider : Option String
  insurance_number : Option String
  insurance_coverage : ℚ
  notes : Option String
  items : List BillItemCreate
deriving DecidableEq, Repr

/-- Request schema `BillUpdate`; `none` means the field was unset in the
request (pydantic `exclude_unset`). -/
structure BillUpdate where
  status : Option PaymentStatus
  paid_amount : Option ℚ
  payment_method : Option PaymentMethod
  insurance_provider : Option String
  insurance_number : Option String
  insurance_coverage : Option ℚ
  notes : Option String
  due_date : Option Int
deriving DecidableEq, Repr

/-- Request schema `PaymentCreate`. -/
structure PaymentCreate where
  amount : ℚ
  payment_method : PaymentMethod
deriving DecidableEq, Repr

/-- Bill table keyed by id. -/
def BillDb := List (Int × Bill)

/-- `db.query(Bill).filter(Bill.id == bill_id).first()`. -/
def findBill (db : BillDb) (bill_id : Int) : Option Bill :=
  (db.find? (fun r => r.1 = bill_id)).map (fun r => r.2)

/-- Commit of a mutated row: write the bill back under its id. -/
def storeBill (db : BillDb) (bill_id : Int) (b : Bill) : BillDb :=
  db.map (fun r => if r.1 = bill_id then (r.1, b) else r)

/-! ## Billing endpoints (`app/routers/billing.py`) -/

/-- `create_bill` (lines 57-106).  `patients` is the set of existing
patient ids.  The bill's `total_amount` is recomputed from the items
(the schema's `total_amount` field is never read); `paid_amount` is not
passed to the `Bill` constructor, so it takes the column default `0.0`;
`balance` is set to the computed total; `status` is taken from the
request payload. -/
def create_bill (patients : List Int) (bill_data : BillCreate) :
    Except HTTPError (Bill × List BillItem) :=
  if ¬ patients.contains bill_data.patient_id then
    .error ⟨404, "Patient not found"⟩
  else
    let total_amount : ℚ :=
      bill_data.items.foldl (fun acc item => acc + item.quantity * item.unit_price) 0
    let bill : Bill :=
      { patient_id := bill_data.patient_id
        bill_date := bill_data.bill_date
        due_date := bill_data.due_date
        total_amount := total_amount
        paid_amount := 0
        balance := total_amount
        status := bill_data.status
        payment_method := bill_data.payment_method
        insurance_provider := bill_data.insurance_provider
        insurance_number := bill_data.insurance_number
        insurance_coverage := bill_data.insurance_coverage
        notes := bill_data.notes }
    let items : List BillItem :=
      bill_data.items.map (fun item_data =>
        { description := item_data.description
          quantity := item_data.quantity
          unit_price := item_data.unit_price
          total_price := item_data.quantity * item_data.unit_price
          item_type := item_data.item_type })
    .ok (bill, items)

/-- The `paid_amount` branch of `update_bill` (lines 122-131): set
`paid_amount` and `balance`, then derive the status — with no `else`
branch, so when `balance > 0` and `paid_amount ≤ 0` the status is left
as it was. -/
def applyPaidAmount (bill : Bill) (new_paid_amount : ℚ) : Bill :=
  let b := { bill with paid_amount := new_paid_amount,
                       balance := bill.total_amount - new_paid_amount }
  if b.balance ≤ 0 then { b with status := PaymentStatus.paid }
  else if new_paid_amount > 0 then { b with status := PaymentStatus.partPaid }
  else b

/-- The "update other fields" loop of `update_bill` (lines 133-136):
every set field except `paid_amount` is written onto the bill,
including `status`.  The fields are disjoint, so the dictionary
iteration order does not matter. -/
def applyOtherFields (bill : Bill) (u : BillUpdate) : Bill :=
  let b := match u.status with
    | some s => { bill with status := s }
    | none => bill
  let b := match u.payment_method with
    | some m => { b with payment_method := some m }
    | none => b
  let b := match u.insurance_provider with
    | some v => { b with insurance_provider := some v }
    | none => b
  let b := match u.insurance_number with
    | some v => { b with insurance_number := some v }
    | none => b
  let b := match u.insurance_coverage with
    | some v => { b with insurance_coverage := v }
    | none => b
  let b := match u.notes with
    | some v => { b with notes := some v }
    | none => b
  match u.due_date with
    | some v => { b with due_date := some v }
    | none => b

/-- Body of `update_bill` after the bill has been found (lines 118-136):
the `paid_amount` handling runs first, the per-field loop runs second,
so a set `status` field overwrites the derived status. -/
def updateAction (bill : Bill) (u : BillUpdate) : Bill :=
  let bill1 := match u.paid_amount with
    | some p => applyPaidAmount bill p
    | none => bill
  applyOtherFields bill1 u

/-- `update_bill` (lines 108-140). -/
def update_bill (db : BillDb) (bill_id : Int) (bill_update : BillUpdate) :
    Except HTTPError (Bill × BillDb) :=
  match findBill db bill_id with
  | none => .error ⟨404, "Bill not found"⟩
  | some bill =>
      let bill2 := updateAction bill bill_update
      .ok (bill2, storeBill db bill_id bill2)

/-- Body of `pay_bill` after the bill has been found (lines 173-195):
reject if already paid, reject non-positive amounts, otherwise add to
`paid_amount`, recompute `balance`, record the payment method and
derive the status. -/
def payAction (bill : Bill) (payment : PaymentCreate) : Except HTTPError Bill :=
  if bill.status = PaymentStatus.paid then
    .error ⟨400, "Bill is already fully paid"⟩
  else if payment.amount ≤ 0 then
    .error ⟨400, "Payment amount must be greater than 0"⟩
  else
    let paid := bill.paid_amount + payment.amount
    let bal := bill.total_amount - paid
    let st := if bal ≤ 0 then PaymentStatus.paid else PaymentStatus.partPaid
    .ok { bill with paid_amount := paid
                    balance := bal
                    payment_method := some payment.payment_method
                    status := st }

/-- `pay_bill` (lines 163-201).  The admin notification side effect is
out of scope. -/
def pay_bill (db : BillDb) (bill_id : Int) (payment : PaymentCreate) :
    Except HTTPError (Bill × BillDb) :=
  match findBill db bill_id with
  | none => .error ⟨404, "Bill not found"⟩
  | some bill =>
      match payAction bill payment with
      | .error e => .error e
      | .ok bill2 => .ok (bill2, storeBill db bill_id bill2)

/-- The bill table after a `pay_bill` request: unchanged when the
handler raises (the exception fires before any mutation is committed). -/
def payBillResultDb (db : BillDb) (bill_id : Int) (payment : PaymentCreate) : BillDb :=
  match pay_bill db bill_id payment with
  | .ok r => r.2
  | .error _ => db

/-- One `pay_bill` attempt on a bill: a rejected payment leaves the
bill as it was (the exception fires before any mutation). -/
def payStep (bill : Bill) (payment : PaymentCreate) : Bill :=
  match payAction bill payment with
  | .ok b2 => b2
  | .error _ => bill

/-- A sequence of `pay_bill` payment actions on one bill. -/
def paySequence (b : Bill) (ps : List PaymentCreate) : Bill :=
  ps.foldl payStep b

/-! ## Users and password lifecycle (`app/models/user.py`) -/

/-- `UserRole` enum. -/
inductive UserRole where
  | admin
  | doctor
  | nurse
  | receptionist
deriving DecidableEq, Repr

/-- The string `.value` of a role. -/
def UserRole.value : UserRole → String
  | .admin => "admin"
  | .doctor => "doctor"
  | .nurse => "nurse"
  | .receptionist => "receptionist"

/-- Persistent `User` row (profile columns beyond those the claims
touch are omitted). -/
structure User where
  id : Int
  username : String
  email : String
  password_hash : String
  role : UserRole
  is_active : Bool
  password_changed_at : Int
  password_expires_at : Option Int
  force_password_change : Bool
deriving DecidableEq, Repr

/-- `User.set_password_expiration` (lines 43-47): stamp the change time,
set the expiry `days` days out, clear the forced-change flag. -/
def set_password_expiration (u : User) (now : Int) (days : Int) : User :=
  { u with password_changed_at := now
           password_expires_at := some (now + days * 86400)
           force_password_change := false }

/-! ## Passlib model (`pwd_context = CryptContext(schemes=["bcrypt"])`)

Modelled from passlib's documented contract: `CryptContext.verify`
first identifies the scheme of the stored hash; a hash that matches no
configured scheme raises `UnknownHashError` (a `ValueError`), and an
identifiable hash is verified against the password, returning a
boolean.  `CryptContext.hash` returns a (salted) hash of the password.
The embedding is parameterised over any such implementation. -/

/-- Error raised by passlib. -/
inductive PasslibError where
  | unknownHash
deriving DecidableEq, Repr

/-- An implementation of the passlib context: `hash`, the recogniser
for well-formed hashes of the configured scheme, and the underlying
bcrypt comparison (meaningful only on identifiable hashes). -/
structure PasslibCtx where
  hash : String → String
  identify : String → Bool
  bcryptVerify : String → String → Bool

/-- `pwd_context.verify(plain, hashed)`: raises `UnknownHashError` on a
hash that no configured scheme identifies, otherwise returns whether
the password matches. -/
def pwdVerify (ctx : PasslibCtx) (plain hashed : String) : Except PasslibError Bool :=
  if ctx.identify hashed then .ok (ctx.bcryptVerify plain hashed)
  else .error PasslibError.unknownHash

/-- `verify_password` (`app/core/auth.py` lines 258-260): a direct call
to `pwd_context.verify` with no exception handling, so a passlib error
propagates to the caller. -/
def verify_password (ctx : PasslibCtx) (plain_password hashed_password : String) :
    Except PasslibError Bool :=
  pwdVerify ctx plain_password hashed_password

/-- `get_password_hash` (`app/core/auth.py` lines 254-256). -/
def get_password_hash (ctx : PasslibCtx) (password : String) : String :=
  ctx.hash password

/-! ## JWT model (`app/core/auth.py` with python-jose)

`jwt.encode(payload, key, alg)` signs the claim set with the key;
`jwt.decode(token, key, algs)` checks the signature and the `exp`
claim, raising a `JWTError` on a bad signature and an
`ExpiredSignatureError` (a `JWTError`) when `exp` has passed.  A token
is modelled as its claim set plus the key it was signed with. -/

/-- The claim set of a JWT as this system populates it; the payload's
`type` claim is the field `kind` here. -/
structure JwtClaims where
  sub : Option String
  user_id : Option Int
  role : Option String
  exp : Int
  iat : Int
  kind : Option String
deriving DecidableEq, Repr

/-- A signed token: claims plus the signing key used at encoding time. -/
structure Jwt where
  claims : JwtClaims
  signedWith : String
deriving DecidableEq, Repr

/-- Errors raised by `jose.jwt.decode`. -/
inductive JWTError where
  | invalidSignature
  | expiredSignature
deriving DecidableEq, Repr

/-- `jwt.decode(token, secret, algorithms)` at wall-clock time `now`:
signature check, then expiry check. -/
def jwtDecode (secret : String) (now : Int) (token : Jwt) :
    Except JWTError JwtClaims :=
  if token.signedWith ≠ secret then .error JWTError.invalidSignature
  else if token.claims.exp < now then .error JWTError.expiredSignature
  else .ok token.claims

/-- `create_access_token` (`app/core/auth.py` lines 40-69) with the
payload `{sub, user_id, role}` this system always passes: adds
`exp = now + expires_delta`, `type = "access"`, `iat = now`, and signs
with the configured secret. -/
def create_access_token (secret : String) (now : Int)
    (sub : String) (user_id : Int) (role : String) (expires_delta : Int) : Jwt :=
  { claims := { sub := some sub
                user_id := some user_id
                role := some role
                exp := now + expires_delta
                iat := now
                kind := some "access" }
    signedWith := secret }

/-- `create_refresh_token` (`app/core/auth.py` lines 71-100): same but
with `type = "refresh"`. -/
def create_refresh_token (secret : String) (now : Int)
    (sub : String) (user_id : Int) (role : String) (expires_delta : Int) : Jwt :=
  { claims := { sub := some sub
                user_id := some user_id
                role := some role
                exp := now + expires_delta
                iat := now
                kind := some "refresh" }
    signedWith := secret }

/-- The result claims of `verify_token`. -/
structure TokenData where
  username : Option String
  user_id : Option Int
  role : Option String
deriving DecidableEq, Repr

/-- The single `credentials_exception` every failure of `verify_token`
is collapsed to (lines 107-111). -/
def credentialsException : HTTPError :=
  ⟨401, "Could not validate credentials"⟩

/-- `verify_token` (`app/core/auth.py` lines 102-141): decode (signature
and expiry), check the `type` claim against the expected kind, then
require `sub` and `user_id` to be present; every failure raises the
one `credentials_exception`. -/
def verify_token (secret : String) (now : Int) (token : Jwt) (token_type : String) :
    Except HTTPError TokenData :=
  match jwtDecode secret now token with
  | .error _ => .error credentialsException
  | .ok payload =>
      if payload.kind ≠ some token_type then .error credentialsException
      else if payload.sub = none ∨ payload.user_id = none then .error credentialsException
      else .ok { username := payload.sub, user_id := payload.user_id, role := payload.role }

/-! ## Authentication router (`app/routers/auth.py`) -/

/-- Outcome of a handler that may raise an `HTTPException` or let a
passlib error propagate (caught by the generic 500 handler upstream). -/
inductive Failure where
  | http (e : HTTPError)
  | passlib (e : PasslibError)
deriving DecidableEq, Repr

/-- A value of the JSON dict the login endpoint returns. -/
inductive RespVal where
  | token (t : Jwt)
  | str (s : String)
  | user (u : User)
deriving DecidableEq, Repr

namespace AuthRouter

/-- `authenticate_user` (`app/routers/auth.py` lines 25-34): locate the
user by username or email, then verify the password. -/
def authenticate_user (ctx : PasslibCtx) (db : List User) (username password : String) :
    Except PasslibError (Option User) :=
  match db.find? (fun u => u.username == username || u.email == username) with
  | none => .ok none
  | some user =>
      (pwdVerify ctx password user.password_hash).map
        (fun ok => if ok then some user else none)

/-- `login` (`app/routers/auth.py` lines 36-68): authenticate (401 on
failure), reject inactive users with a 400, then issue a single access
token and return the dict
`{"access_token": ..., "token_type": "bearer", "user": ...}`.
`create_user_tokens` and `create_refresh_token` are not called. -/
def login (ctx : PasslibCtx) (secret : String) (access_token_expire_minutes : Int)
    (db : List User) (now : Int) (form_username form_password : String) :
    Except Failure (List (String × RespVal)) :=
  match authenticate_user ctx db form_username form_password with
  | .error e => .error (Failure.passlib e)
  | .ok none => .error (Failure.http ⟨401, "Incorrect username or password"⟩)
  | .ok (some user) =>
      if ¬ user.is_active then .error (Failure.http ⟨400, "Inactive user"⟩)
      else
        let access_token := create_access_token secret now user.username user.id
          user.role.value (access_token_expire_minutes * 60)
        .ok [("access_token", RespVal.token access_token),
             ("token_type", RespVal.str "bearer"),
             ("user", RespVal.user user)]

/-- `change_password` (`app/routers/auth.py` lines 135-153): verify the
current password, then store the hash of the new password and commit.
No confirmation, strength or expiry logic runs. -/
def change_password (ctx : PasslibCtx) (current_user : User)
    (current_password new_password : String) : Except Failure User :=
  match pwdVerify ctx current_password current_user.password_hash with
  | .error e => .error (Failure.passlib e)
  | .ok ok =>
      if ¬ ok then .error (Failure.http ⟨400, "Current password is incorrect"⟩)
      else .ok { current_user with password_hash := get_password_hash ctx new_password }

end AuthRouter

/-! ## Password router (`app/routers/password.py`) -/

/-- Request schema `PasswordChangeRequest`. -/
structure PasswordChangeRequest where
  current_password : String
  new_password : String
  confirm_password : String
deriving DecidableEq, Repr

/-- Python's per-character classification used by the strength checks
(`any(c.isupper() for c in ...)` etc.).  Modelled from the Python
documentation: `str.isupper`, `str.islower` and `str.isdigit` consult
the Unicode character database, so they agree with the ASCII classes
on ASCII characters but also accept non-ASCII characters (for example
`'Ä'.isupper()`, `'ä'.islower()` and `'²'.isdigit()` are all true).
The embedding is parameterised over any classification satisfying the
ASCII-agreement laws; Lean's `Char.isUpper`/`isLower`/`isDigit` are
the ASCII classes used in those laws. -/
structure PyStrClass where
  isupper : Char → Bool
  islower : Char → Bool
  isdigit : Char → Bool
  ascii_upper : ∀ c : Char, c.toNat < 128 → isupper c = c.isUpper
  ascii_lower : ∀ c : Char, c.toNat < 128 → islower c = c.isLower
  ascii_digit : ∀ c : Char, c.toNat < 128 → isdigit c = c.isDigit

namespace PasswordRouter

/-- `change_password` (`app/routers/password.py` lines 24-92): verify
the current password; require new == confirmation; require the new
password not to verify against the current hash; strength checks
(length ≥ 8, and `any(c.isupper())`, `any(c.islower())`,
`any(c.isdigit())` over the characters, with Python's Unicode-aware
classification `py : PyStrClass`); then store the new hash and run
`set_password_expiration(90)`. -/
def change_password (ctx : PasslibCtx) (py : PyStrClass) (now : Int) (current_user : User)
    (password_data : PasswordChangeRequest) : Except Failure User :=
  match pwdVerify ctx password_data.current_password current_user.password_hash with
  | .error e => .error (Failure.passlib e)
  | .ok okCur =>
      if ¬ okCur then
        .error (Failure.http ⟨400, "Current password is incorrect"⟩)
      else if password_data.new_password ≠ password_data.confirm_password then
        .error (Failure.http ⟨400, "New password and confirmation do not match"⟩)
      else
        match pwdVerify ctx password_data.new_password current_user.password_hash with
        | .error e => .error (Failure.passlib e)
        | .ok sameAsOld =>
            if sameAsOld then
              .error (Failure.http ⟨400, "New password must be different from current password"⟩)
            else if password_data.new_password.length < 8 then
              .error (Failure.http ⟨400, "Password must be at least 8 characters long"⟩)
            else if ¬ password_data.new_password.data.any py.isupper then
              .error (Failure.http ⟨400, "Password must contain at least one uppercase letter"⟩)
            else if ¬ password_data.new_password.data.any py.islower then
              .error (Failure.http ⟨400, "Password must contain at least one lowercase letter"⟩)
            else if ¬ password_data.new_password.data.any py.isdigit then
              .error (Failure.http ⟨400, "Password must contain at least one digit"⟩)
            else
              let updated := { current_user with
                password_hash := get_password_hash ctx password_data.new_password }
              .ok (set_password_expiration updated now 90)

end PasswordRouter

/-! ## Specification-side definitions and concrete sample inputs -/

/-- The status derivation rule exactly as the specification (§4.5)
states it, for comparison with the code paths: paid if balance ≤ 0,
else partial if paid_amount > 0, else pending. -/
def specDerivedStatus (total_amount paid_amount : ℚ) : PaymentStatus :=
  if total_amount - paid_amount ≤ 0 then PaymentStatus.paid
  else if 0 < paid_amount then PaymentStatus.partPaid
  else PaymentStatus.pending

/-- A freshly created bill with the spec's concrete scenario total of
130: pending, nothing paid. -/
def sampleBill : Bill :=
  { patient_id := 1
    bill_date := 0
    due_date := none
    total_amount := 130
    paid_amount := 0
    balance := 130
    status := PaymentStatus.pending
    payment_method := none
    insurance_provider := none
    insurance_number := none
    insurance_coverage := 0
    notes := none }

/-- A cash payment of the given amount. -/
def cashPayment (a : ℚ) : PaymentCreate :=
  { amount := a, payment_method := PaymentMethod.cash }

/-- `sampleBill` after paying 50. -/
def sampleBill50 : Bill :=
  { sampleBill with paid_amount := 50
                    balance := 80
                    status := PaymentStatus.partPaid
                    payment_method := some PaymentMethod.cash }

/-- `sampleBill` after paying 50 and then 80. -/
def samplePaidBill : Bill :=
  { sampleBill with paid_amount := 130
                    balance := 0
                    status := PaymentStatus.paid
                    payment_method := some PaymentMethod.cash }

/-- A bill of total 100 with nothing paid. -/
def cexBill : Bill :=
  { sampleBill with total_amount := 100, balance := 100 }

/-- An update payload that sets `paid_amount = 40` and nothing else. -/
def sampleUpdate40 : BillUpdate :=
  { status := none
    paid_amount := some 40
    payment_method := none
    insurance_provider := none
    insurance_number := none
    insurance_coverage := none
    notes := none
    due_date := none }

/-- `cexBill` (total 100) after a discrete payment of 40. -/
def cexBillPaid40 : Bill :=
  { cexBill with paid_amount := 40
                 balance := 60
                 status := PaymentStatus.partPaid
                 payment_method := some PaymentMethod.cash }

/-- An update payload that pays the bill off in full but also supplies
`status = pending`. -/
def cexUpdate : BillUpdate :=
  { status := some PaymentStatus.pending
    paid_amount := some 100
    payment_method := none
    insurance_provider := none
    insurance_number := none
    insurance_coverage := none
    notes := none
    due_date := none }

/-- A one-row bill table holding a fully paid bill. -/
def paidDb : BillDb := [(1, samplePaidBill)]

/-- `sampleBill` cancelled. -/
def cancelledBill : Bill :=
  { sampleBill with status := PaymentStatus.cancelled }

/-- A one-row bill table holding a cancelled bill. -/
def cancelledDb : BillDb := [(1, cancelledBill)]

/-- A `BillCreate` payload carrying the spec's two line items, plus a
client-supplied `total_amount` of 999 and a client-supplied
`status = cancelled`. -/
def cexCreate : BillCreate :=
  { patient_id := 1
    bill_date := 0
    due_date := none
    total_amount := 999
    paid_amount := 0
    balance := 0
    status := PaymentStatus.cancelled
    payment_method := none
    insurance_provider := none
    insurance_number := none
    insurance_coverage := 0
    notes := none
    items := [{ description := "consultation", quantity := 2, unit_price := 50, item_type := none },
              { description := "medication", quantity := 1, unit_price := 30, item_type := none }] }

/-- The bill `create_bill` stores for the `cexCreate` payload. -/
def cexCreatedBill : Bill :=
  { patient_id := 1
    bill_date := 0
    due_date := none
    total_amount := 130
    paid_amount := 0
    balance := 130
    status := PaymentStatus.cancelled
    payment_method := none
    insurance_provider := none
    insurance_number := none
    insurance_coverage := 0
    notes := none }

/-- The line items `create_bill` stores for the `cexCreate` payload. -/
def cexCreatedItems : List BillItem :=
  [{ description := "consultation", quantity := 2, unit_price := 50,
     total_price := 100, item_type := none },
   { description := "medication", quantity := 1, unit_price := 30,
     total_price := 30, item_type := none }]

/-- A concrete passlib implementation for witnesses: hashes are the
password behind a bcrypt-looking prefix, and a hash is identifiable
exactly when it carries that prefix. -/
def toyCtx : PasslibCtx :=
  { hash := fun p => "$2b$12$" ++ p
    identify := fun h => (h.data.take 4) == "$2b$".data
    bcryptVerify := fun p h => h == "$2b$12$" ++ p }

/-- A concrete active user. -/
def alice : User :=
  { id := 1
    username := "alice"
    email := "alice@hospital.test"
    password_hash := "$2b$12$pw1"
    role := UserRole.doctor
    is_active := true
    password_changed_at := 0
    password_expires_at := some 7776000
    force_password_change := false }

/-- The same user, deactivated. -/
def inactiveAlice : User :=
  { alice with is_active := false }

/-- The token the login route issues for `alice` at time 1000 with a
30-minute window. -/
def aliceToken : Jwt :=
  create_access_token "secret" 1000 "alice" 1 "doctor" (30 * 60)

/-- An otherwise well-formed access token whose expiry has passed at
time 100. -/
def staleToken : Jwt :=
  { claims := { sub := some "alice"
                user_id := some 1
                role := some "doctor"
                exp := 50
                iat := 0
                kind := some "access" }
    signedWith := "secret" }

/-- A valid change-password request for `alice`. -/
def samplePwChange : PasswordChangeRequest :=
  { current_password := "pw1"
    new_password := "Newpass1"
    confirm_password := "Newpass1" }

/-- `alice` after the self-service password change at time 1000. -/
def aliceAfterChange : User :=
  { alice with password_hash := "$2b$12$Newpass1"
               password_changed_at := 1000
               password_expires_at := some 7777000
               force_password_change := false }

/-- A concrete Unicode-aware classification for witnesses: on ASCII
characters it is the ASCII class, and beyond ASCII it classifies the
sample characters the way Python does (`'Ä'.isupper()`,
`'ä'.islower()`, `'²'.isdigit()` are all true). -/
def pyUnicode : PyStrClass :=
  { isupper := fun c => if c.toNat < 128 then c.isUpper else c == 'Ä'
    islower := fun c => if c.toNat < 128 then c.isLower else c == 'ä'
    isdigit := fun c => if c.toNat < 128 then c.isDigit else c == '²'
    ascii_upper := by
      intro c h
      simp [h]
    ascii_lower := by
      intro c h
      simp [h]
    ascii_digit := by
      intro c h
      simp [h] }

/-- A change-password request whose new password "Ää1aaaaa" (8
characters) contains an uppercase letter only outside ASCII. -/
def unicodePwChange : PasswordChangeRequest :=
  { current_password := "pw1"
    new_password := "Ää1aaaaa"
    confirm_password := "Ää1aaaaa" }

/-- `alice` after changing her password to "Ää1aaaaa" at time 1000. -/
def aliceAfterUnicode : User :=
  { alice with password_hash := "$2b$12$Ää1aaaaa"
               password_changed_at := 1000
               password_expires_at := some 7777000
               force_password_change := false }

/-! ## Helper lemmas -/

theorem payAction_ok_spec {bill : Bill} {payment : PaymentCreate} {b2 : Bill}
    (h : payAction bill payment = Except.ok b2) :
    bill.status ≠ PaymentStatus.paid ∧ 0 < payment.amount ∧
    b2.paid_amount = bill.paid_amount + payment.amount ∧
    b2.total_amount = bill.total_amount ∧
    b2.balance = bill.total_amount - (bill.paid_amount + payment.amount) ∧
    b2.status = (if bill.total_amount - (bill.paid_amount + payment.amount) ≤ 0
                 then PaymentStatus.paid else PaymentStatus.partPaid) ∧
    b2.payment_method = some payment.payment_method := by
  unfold payAction at h
  by_cases h1 : bill.status = PaymentStatus.paid
  · simp [h1] at h
  · rw [if_neg h1] at h
    by_cases h2 : payment.amount ≤ 0
    · simp [h2] at h
    · rw [if_neg h2] at h
      simp only [Except.ok.injEq] at h
      subst h
      exact ⟨h1, lt_of_not_le h2, rfl, rfl, rfl, rfl, rfl⟩

theorem payStep_total (bill : Bill) (payment : PaymentCreate) :
    (payStep bill payment).total_amount = bill.total_amount := by
  unfold payStep
  cases h : payAction bill payment with
  | ok b2 => exact (payAction_ok_spec h).2.2.2.1
  | error e => rfl

theorem payStep_paid_nonneg (bill : Bill) (payment : PaymentCreate)
    (h : 0 ≤ bill.paid_amount) : 0 ≤ (payStep bill payment).paid_amount := by
  unfold payStep
  cases hp : payAction bill payment with
  | ok b2 =>
      obtain ⟨-, hamt, hpaid, -⟩ := payAction_ok_spec hp
      rw [hpaid]
      exact add_nonneg h (le_of_lt hamt)
  | error e => exact h

theorem paySequence_cons (b : Bill) (p : PaymentCreate) (ps : List PaymentCreate) :
    paySequence b (p :: ps) = paySequence (payStep b p) ps := rfl

theorem paySequence_snoc (b : Bill) (ps : List PaymentCreate) (p : PaymentCreate) :
    paySequence b (ps ++ [p]) = payStep (paySequence b ps) p := by
  unfold paySequence
  rw [List.foldl_append]
  rfl

theorem paySequence_total (b : Bill) (ps : List PaymentCreate) :
    (paySequence b ps).total_amount = b.total_amount := by
  induction ps generalizing b with
  | nil => rfl
  | cons p ps ih =>
      rw [paySequence_cons, ih (payStep b p), payStep_total]

theorem paySequence_paid_nonneg (b : Bill) (ps : List PaymentCreate)
    (h : 0 ≤ b.paid_amount) : 0 ≤ (paySequence b ps).paid_amount := by
  induction ps generalizing b with
  | nil => exact h
  | cons p ps ih =>
      rw [paySequence_cons]
      exact ih (payStep b p) (payStep_paid_nonneg b p h)

/-! ## Claims -/

/-- C1: for every bill with total_amount T (and a nonnegative paid
amount, as every bill created by `create_bill` has) and every sequence
of `pay_bill` payment actions applied to it, after each successful
payment the bill satisfies `paid_amount + balance == T`, and its status
matches the derivation rule exactly: `paid` if `balance ≤ 0`, otherwise
`partial`, with `paid_amount > 0` after any successful payment. -/
theorem pay_sequence_invariant (b0 : Bill) (ps : List PaymentCreate)
    (h0 : 0 ≤ b0.paid_amount)
    (pre : List PaymentCreate) (payment : PaymentCreate) (post : List PaymentCreate)
    (hseq : ps = pre ++ payment :: post)
    (b2 : Bill) (hok : payAction (paySequence b0 pre) payment = Except.ok b2) :
    paySequence b0 (pre ++ [payment]) = b2 ∧
    b2.total_amount = b0.total_amount ∧
    b2.paid_amount + b2.balance = b0.total_amount ∧
    (b2.balance ≤ 0 → b2.status = PaymentStatus.paid) ∧
    (0 < b2.balance → b2.status = PaymentStatus.partPaid) ∧
    0 < b2.paid_amount := by
  obtain ⟨hnp, hamt, hpaid, htot, hbal, hstat, hpm⟩ := payAction_ok_spec hok
  have htot0 : (paySequence b0 pre).total_amount = b0.total_amount :=
    paySequence_total b0 pre
  have hp0 : 0 ≤ (paySequence b0 pre).paid_amount :=
    paySequence_paid_nonneg b0 pre h0
  refine ⟨?_, ?_, ?_, ?_, ?_, ?_⟩
  · rw [paySequence_snoc]
    unfold payStep
    rw [hok]
  · rw [htot, htot0]
  · rw [hpaid, hbal, htot0]; ring
  · intro hble
    rw [hstat, ← hbal] at *
    rw [if_pos hble]
  · intro hblt
    rw [hstat, ← hbal] at *
    rw [if_neg (not_le.mpr hblt)]
  · rw [hpaid]
    exact add_pos_of_nonneg_of_pos hp0 hamt

/-- Witness for C1 at the spec's concrete scenario: total 130, pay 50
then 80. -/
theorem pay_sequence_invariant_witness :
    paySequence sampleBill ([cashPayment 50] ++ [cashPayment 80]) = samplePaidBill ∧
    samplePaidBill.total_amount = sampleBill.total_amount ∧
    samplePaidBill.paid_amount + samplePaidBill.balance = sampleBill.total_amount ∧
    (samplePaidBill.balance ≤ 0 → samplePaidBill.status = PaymentStatus.paid) ∧
    (0 < samplePaidBill.balance → samplePaidBill.status = PaymentStatus.partPaid) ∧
    0 < samplePaidBill.paid_amount := by
  have s50 : payAction sampleBill (cashPayment 50) = Except.ok sampleBill50 := by
    norm_num [payAction, cashPayment, sampleBill, sampleBill50]
    intro h
    exact absurd h (by decide)
  have hmid : paySequence sampleBill [cashPayment 50] = sampleBill50 := by
    show payStep sampleBill (cashPayment 50) = sampleBill50
    unfold payStep
    rw [s50]
  have hok : payAction (paySequence sampleBill [cashPayment 50]) (cashPayment 80)
      = Except.ok samplePaidBill := by
    rw [hmid]
    norm_num [payAction, cashPayment, sampleBill, sampleBill50, samplePaidBill]
    intro h
    exact absurd h (by decide)
  exact pay_sequence_invariant sampleBill [cashPayment 50, cashPayment 80]
    (by norm_num [sampleBill])
    [cashPayment 50] (cashPayment 80) [] rfl samplePaidBill hok

theorem applyOtherFields_fields (b : Bill) (u : BillUpdate) :
    (applyOtherFields b u).total_amount = b.total_amount ∧
    (applyOtherFields b u).paid_amount = b.paid_amount ∧
    (applyOtherFields b u).balance = b.balance ∧
    (applyOtherFields b u).status = u.status.getD b.status := by
  obtain ⟨us, upa, upm, uip, uin, uic, un, ud⟩ := u
  cases us <;> cases upm <;> cases uip <;> cases uin <;> cases uic <;> cases un <;>
    cases ud <;> simp [applyOtherFields]

theorem applyPaidAmount_fields (bill : Bill) (p : ℚ) :
    (applyPaidAmount bill p).total_amount = bill.total_amount ∧
    (applyPaidAmount bill p).paid_amount = p ∧
    (applyPaidAmount bill p).balance = bill.total_amount - p ∧
    (applyPaidAmount bill p).status =
      (if bill.total_amount - p ≤ 0 then PaymentStatus.paid
       else if 0 < p then PaymentStatus.partPaid else bill.status) := by
  unfold applyPaidAmount
  by_cases h1 : bill.total_amount - p ≤ 0
  · simp [h1]
  · by_cases h2 : 0 < p
    · simp [h1, h2]
    · simp [h1, h2]

/-- C2 counterexample: `update_bill` does not apply the derivation rule
regardless of a caller-supplied status field.  Updating a bill of total
100 with `paid_amount = 100` and `status = pending` in one payload
yields balance ≤ 0 with final status `pending`, not the derived
`paid`. -/
theorem update_status_override_cex :
    (updateAction cexBill cexUpdate).balance ≤ 0 ∧
    (updateAction cexBill cexUpdate).status = PaymentStatus.pending ∧
    specDerivedStatus cexBill.total_amount 100 = PaymentStatus.paid ∧
    (updateAction cexBill cexUpdate).status ≠
      specDerivedStatus cexBill.total_amount 100 := by
  norm_num [updateAction, applyPaidAmount, applyOtherFields, cexBill, cexUpdate,
    sampleBill, specDerivedStatus]
  decide

/-- C2 (amended): both paths recompute `balance = total_amount −
paid_amount`.  When the update payload carries `paid_amount` and no
`status` field, `update_bill` sets the status by the spec's derivation
rule whenever the new paid amount is positive or clears the balance,
and otherwise leaves the status unchanged (it never derives `pending`);
`pay_bill` (from a bill with nonnegative paid amount) derives the
status by the same rule.  A caller-supplied `status` field overrides
the derived status (see the counterexample). -/
theorem update_pay_same_derivation (bill : Bill) (u : BillUpdate) (p : ℚ)
    (payment : PaymentCreate) (b2 : Bill)
    (hpa : u.paid_amount = some p) (hs : u.status = none)
    (hpaid0 : 0 ≤ bill.paid_amount)
    (hok : payAction bill payment = Except.ok b2) :
    (updateAction bill u).paid_amount = p ∧
    (updateAction bill u).balance = bill.total_amount - p ∧
    ((bill.total_amount - p ≤ 0 ∨ 0 < p) →
      (updateAction bill u).status = specDerivedStatus bill.total_amount p) ∧
    (¬ bill.total_amount - p ≤ 0 → ¬ 0 < p →
      (updateAction bill u).status = bill.status) ∧
    b2.balance = bill.total_amount - b2.paid_amount ∧
    b2.status = specDerivedStatus bill.total_amount b2.paid_amount := by
  have hun : updateAction bill u = applyOtherFields (applyPaidAmount bill p) u := by
    unfold updateAction
    rw [hpa]
  obtain ⟨ofT, ofP, ofB, ofS⟩ := applyOtherFields_fields (applyPaidAmount bill p) u
  obtain ⟨paT, paP, paB, paS⟩ := applyPaidAmount_fields bill p
  obtain ⟨pnp, pamt, ppaid, ptot, pbal, pstat, ppm⟩ := payAction_ok_spec hok
  rw [hs] at ofS
  refine ⟨?_, ?_, ?_, ?_, ?_, ?_⟩
  · rw [hun, ofP, paP]
  · rw [hun, ofB, paB]
  · intro hd
    rw [hun, ofS, Option.getD_none, paS, specDerivedStatus]
    rcases hd with hd | hd
    · rw [if_pos hd, if_pos hd]
    · by_cases h1 : bill.total_amount - p ≤ 0
      · rw [if_pos h1, if_pos h1]
      · rw [if_neg h1, if_neg h1, if_pos hd, if_pos hd]
  · intro h1 h2
    rw [hun, ofS, Option.getD_none, paS, if_neg h1, if_neg h2]
  · rw [pbal, ppaid]
  · rw [pstat, ppaid, specDerivedStatus]
    by_cases h1 : bill.total_amount - (bill.paid_amount + payment.amount) ≤ 0
    · rw [if_pos h1, if_pos h1]
    · rw [if_neg h1, if_neg h1,
        if_pos (add_pos_of_nonneg_of_pos hpaid0 pamt)]

/-- Witness for C2 (amended): total 100, update with `paid_amount = 40`
and no status field, versus a discrete payment of 40. -/
theorem update_pay_same_derivation_witness :
    (updateAction cexBill sampleUpdate40).paid_amount = 40 ∧
    (updateAction cexBill sampleUpdate40).balance = cexBill.total_amount - 40 ∧
    ((cexBill.total_amount - 40 ≤ 0 ∨ (0:ℚ) < 40) →
      (updateAction cexBill sampleUpdate40).status =
        specDerivedStatus cexBill.total_amount 40) ∧
    (¬ cexBill.total_amount - 40 ≤ 0 → ¬ (0:ℚ) < 40 →
      (updateAction cexBill sampleUpdate40).status = cexBill.status) ∧
    cexBillPaid40.balance = cexBill.total_amount - cexBillPaid40.paid_amount ∧
    cexBillPaid40.status =
      specDerivedStatus cexBill.total_amount cexBillPaid40.paid_amount := by
  have hok : payAction cexBill (cashPayment 40) = Except.ok cexBillPaid40 := by
    norm_num [payAction, cashPayment, cexBill, sampleBill, cexBillPaid40]
    intro h
    exact absurd h (by decide)
  exact update_pay_same_derivation cexBill sampleUpdate40 40 (cashPayment 40)
    cexBillPaid40 rfl rfl (by norm_num [cexBill, sampleBill]) hok

/-- C3 counterexample: a payment of amount 0 against an already-paid
bill is rejected with the already-paid conflict, not the non-positive
amount validation error — the claim's second clause ("for every bill
and every payment with amount ≤ 0, the payment is rejected as a
validation error") fails on paid bills. -/
theorem pay_paid_nonpositive_cex :
    pay_bill paidDb 1 (cashPayment 0) =
      Except.error ⟨400, "Bill is already fully paid"⟩ ∧
    pay_bill paidDb 1 (cashPayment 0) ≠
      Except.error ⟨400, "Payment amount must be greater than 0"⟩ := by
  have h1 : pay_bill paidDb 1 (cashPayment 0) =
      Except.error ⟨400, "Bill is already fully paid"⟩ := rfl
  refine ⟨h1, ?_⟩
  rw [h1]
  intro h
  rw [Except.error.injEq, HTTPError.mk.injEq] at h
  exact absurd h.2 (by decide)

/-- C3 (amended): a payment attempt against a bill in status `paid` is
rejected as the already-paid conflict and leaves the bill table (hence
`paid_amount`, `balance` and `status`) unchanged; against a bill not in
status `paid`, a payment with amount ≤ 0 is rejected as the amount
validation error with the bill table unchanged.  (On an already-paid
bill the conflict rejection takes precedence over amount validation.) -/
theorem pay_bill_rejects (db : BillDb) (bill_id : Int) (payment : PaymentCreate)
    (bill : Bill) (hfound : findBill db bill_id = some bill) :
    (bill.status = PaymentStatus.paid →
      pay_bill db bill_id payment =
        Except.error ⟨400, "Bill is already fully paid"⟩ ∧
      payBillResultDb db bill_id payment = db) ∧
    (bill.status ≠ PaymentStatus.paid → payment.amount ≤ 0 →
      pay_bill db bill_id payment =
        Except.error ⟨400, "Payment amount must be greater than 0"⟩ ∧
      payBillResultDb db bill_id payment = db) := by
  constructor
  · intro hp
    have he : pay_bill db bill_id payment =
        Except.error ⟨400, "Bill is already fully paid"⟩ := by
      simp only [pay_bill, hfound]
      unfold payAction
      rw [if_pos hp]
    refine ⟨he, ?_⟩
    unfold payBillResultDb
    rw [he]
  · intro hp hamt
    have he : pay_bill db bill_id payment =
        Except.error ⟨400, "Payment amount must be greater than 0"⟩ := by
      simp only [pay_bill, hfound]
      unfold payAction
      rw [if_neg hp, if_pos hamt]
    refine ⟨he, ?_⟩
    unfold payBillResultDb
    rw [he]

/-- Witness for C3 (amended) on the fully paid sample bill. -/
theorem pay_bill_rejects_witness :
    (pay_bill paidDb 1 (cashPayment 5) =
      Except.error ⟨400, "Bill is already fully paid"⟩ ∧
     payBillResultDb paidDb 1 (cashPayment 5) = paidDb) ∧
    (pay_bill cancelledDb 1 (cashPayment (-3)) =
      Except.error ⟨400, "Payment amount must be greater than 0"⟩ ∧
     payBillResultDb cancelledDb 1 (cashPayment (-3)) = cancelledDb) :=
  ⟨(pay_bill_rejects paidDb 1 (cashPayment 5) samplePaidBill rfl).1 rfl,
   (pay_bill_rejects cancelledDb 1 (cashPayment (-3)) cancelledBill rfl).2
     (by decide) (by norm_num [cashPayment])⟩

/-- C9: `pay_bill` rejects a payment exactly when the bill does not
exist, its status is `paid`, or the payment amount is ≤ 0; in
particular a cancelled bill accepts any positive payment and moves to
`partial` or `paid` — cancelled is not terminal for the payment
operation. -/
theorem pay_bill_reject_conditions (db : BillDb) (bill_id : Int)
    (payment : PaymentCreate) :
    ((∃ e, pay_bill db bill_id payment = Except.error e) ↔
      (findBill db bill_id = none ∨
       (∃ bill, findBill db bill_id = some bill ∧
         (bill.status = PaymentStatus.paid ∨ payment.amount ≤ 0)))) ∧
    (∀ bill, findBill db bill_id = some bill →
      bill.status = PaymentStatus.cancelled → 0 < payment.amount →
      ∃ b2 db2, pay_bill db bill_id payment = Except.ok (b2, db2) ∧
        (b2.status = PaymentStatus.partPaid ∨ b2.status = PaymentStatus.paid)) := by
  cases hf : findBill db bill_id with
  | none =>
      constructor
      · constructor
        · intro _
          exact Or.inl rfl
        · intro _
          refine ⟨⟨404, "Bill not found"⟩, ?_⟩
          simp only [pay_bill, hf]
      · intro bill hb
        exact absurd hb (by simp)
  | some bill =>
      by_cases h1 : bill.status = PaymentStatus.paid
      · have he : pay_bill db bill_id payment =
            Except.error ⟨400, "Bill is already fully paid"⟩ := by
          simp only [pay_bill, hf]
          unfold payAction
          rw [if_pos h1]
        constructor
        · constructor
          · intro _
            exact Or.inr ⟨bill, rfl, Or.inl h1⟩
          · intro _
            exact ⟨_, he⟩
        · intro bill2 hb2 hc _
          rw [Option.some.injEq] at hb2
          rw [hb2, hc] at h1
          exact absurd h1 (by simp)
      · by_cases h2 : payment.amount ≤ 0
        · have he : pay_bill db bill_id payment =
              Except.error ⟨400, "Payment amount must be greater than 0"⟩ := by
            simp only [pay_bill, hf]
            unfold payAction
            rw [if_neg h1, if_pos h2]
          constructor
          · constructor
            · intro _
              exact Or.inr ⟨bill, rfl, Or.inr h2⟩
            · intro _
              exact ⟨_, he⟩
          · intro bill2 hb2 hc hpos
            exact absurd hpos (not_lt.mpr h2)
        · obtain ⟨b2, hok⟩ : ∃ b2, payAction bill payment = Except.ok b2 :=
            ⟨_, by unfold payAction; rw [if_neg h1, if_neg h2]⟩
          have he : pay_bill db bill_id payment =
              Except.ok (b2, storeBill db bill_id b2) := by
            simp only [pay_bill, hf, hok]
          constructor
          · constructor
            · intro hex
              obtain ⟨e, hee⟩ := hex
              rw [he] at hee
              exact absurd hee (by simp)
            · intro hd
              rcases hd with hd | ⟨bill2, hb2, hcond⟩
              · exact absurd hd (by simp)
              · rw [Option.some.injEq] at hb2
                rw [← hb2] at hcond
                rcases hcond with hc | hc
                · exact absurd hc h1
                · exact absurd hc h2
          · intro bill2 hb2 hc hpos
            refine ⟨b2, storeBill db bill_id b2, he, ?_⟩
            obtain ⟨-, -, -, -, -, hstat, -⟩ := payAction_ok_spec hok
            by_cases hb : bill.total_amount - (bill.paid_amount + payment.amount) ≤ 0
            · exact Or.inr (by rw [hstat, if_pos hb])
            · exact Or.inl (by rw [hstat, if_neg hb])

/-- Witness for C9: the cancelled sample bill accepts a payment of 60. -/
theorem pay_bill_reject_conditions_witness :
    ∃ b2 db2, pay_bill cancelledDb 1 (cashPayment 60) = Except.ok (b2, db2) ∧
      (b2.status = PaymentStatus.partPaid ∨ b2.status = PaymentStatus.paid) :=
  (pay_bill_reject_conditions cancelledDb 1 (cashPayment 60)).2
    cancelledBill rfl (by decide) (by norm_num [cashPayment])

theorem foldl_items_total (l : List BillItemCreate) (acc : ℚ) :
    l.foldl (fun a it => a + (it.quantity : ℚ) * it.unit_price) acc =
      acc + (l.map (fun it => (it.quantity : ℚ) * it.unit_price)).sum := by
  induction l generalizing acc with
  | nil => simp
  | cons x xs ih =>
      rw [List.foldl_cons, ih, List.map_cons, List.sum_cons, add_assoc]

/-- C4 counterexample: `create_bill` does compute the total server-side
(the payload's `total_amount = 999` is ignored and the stored total is
130 = 2·50 + 1·30), but the initial status is taken from the payload
rather than initialized to `pending`: a payload with
`status = cancelled` creates a cancelled bill. -/
theorem create_bill_status_cex :
    create_bill [1] cexCreate = Except.ok (cexCreatedBill, cexCreatedItems) ∧
    cexCreate.total_amount = 999 ∧
    cexCreatedBill.total_amount = 130 ∧
    cexCreate.status = PaymentStatus.cancelled ∧
    cexCreatedBill.status = PaymentStatus.cancelled ∧
    cexCreatedBill.status ≠ PaymentStatus.pending := by
  refine ⟨?_, rfl, rfl, rfl, rfl, by decide⟩
  norm_num [create_bill, cexCreate, cexCreatedBill, cexCreatedItems]

/-- C4 (amended): creating a bill computes `total_amount` server-side as
the sum of quantity × unit_price over the supplied items — the
client-supplied `total_amount` field is ignored (the same payload with
any other `total_amount` yields the same stored bill) — and initializes
`balance = total_amount`, `paid_amount = 0`, and `status` to the
payload's `status` field (whose schema default is `pending`, but any
client-supplied value is stored as-is); each stored line item has
`total_price = quantity × unit_price`. -/
theorem create_bill_spec (patients : List Int) (bd : BillCreate) (t : ℚ)
    (bill : Bill) (items : List BillItem)
    (h : create_bill patients bd = Except.ok (bill, items)) :
    bill.total_amount =
      (bd.items.map (fun it => (it.quantity : ℚ) * it.unit_price)).sum ∧
    create_bill patients { bd with total_amount := t } =
      Except.ok (bill, items) ∧
    bill.balance = bill.total_amount ∧
    bill.paid_amount = 0 ∧
    bill.status = bd.status ∧
    ∀ it ∈ items, it.total_price = (it.quantity : ℚ) * it.unit_price := by
  have h0 := h
  unfold create_bill at h
  by_cases hc : patients.contains bd.patient_id = true
  · rw [if_neg (not_not_intro hc)] at h
    simp only [Except.ok.injEq, Prod.mk.injEq] at h
    obtain ⟨hB, hI⟩ := h
    refine ⟨?_, ?_, ?_, ?_, ?_, ?_⟩
    · rw [← hB]
      show bd.items.foldl (fun a it => a + (it.quantity : ℚ) * it.unit_price) 0 = _
      rw [foldl_items_total, zero_add]
    · exact h0
    · rw [← hB]
    · rw [← hB]
    · rw [← hB]
    · intro it hit
      rw [← hI] at hit
      obtain ⟨src, hsrc, hmap⟩ := List.mem_map.mp hit
      rw [← hmap]
  · rw [if_pos hc] at h
    exact absurd h (by simp)

theorem pwdVerify_ok {ctx : PasslibCtx} {p h : String} {b : Bool}
    (hv : pwdVerify ctx p h = Except.ok b) :
    ctx.identify h = true ∧ b = ctx.bcryptVerify p h := by
  unfold pwdVerify at hv
  by_cases hid : ctx.identify h = true
  · rw [if_pos hid] at hv
    exact ⟨hid, (Except.ok.inj hv).symm⟩
  · rw [if_neg hid] at hv
    exact absurd hv (by simp)

theorem jwtDecode_ok {secret : String} {now : Int} {token : Jwt} {payload : JwtClaims}
    (h : jwtDecode secret now token = Except.ok payload) :
    payload = token.claims ∧ token.signedWith = secret ∧ ¬ token.claims.exp < now := by
  unfold jwtDecode at h
  by_cases hsg : token.signedWith ≠ secret
  · rw [if_pos hsg] at h
    exact absurd h (by simp)
  · rw [if_neg hsg] at h
    by_cases hexp : token.claims.exp < now
    · rw [if_pos hexp] at h
      exact absurd h (by simp)
    · rw [if_neg hexp] at h
      exact ⟨(Except.ok.inj h).symm, not_not.mp hsg, hexp⟩

theorem jwtDecode_error_of (secret : String) (now : Int) (token : Jwt)
    (h : token.signedWith ≠ secret ∨ token.claims.exp < now) :
    ∃ e, jwtDecode secret now token = Except.error e := by
  unfold jwtDecode
  by_cases hsg : token.signedWith ≠ secret
  · rw [if_pos hsg]
    exact ⟨_, rfl⟩
  · rcases h with h | h
    · exact absurd h hsg
    · rw [if_neg hsg, if_pos h]
      exact ⟨_, rfl⟩

theorem verify_token_fail (secret : String) (now : Int) (token : Jwt)
    (token_type : String)
    (h : token.signedWith ≠ secret ∨ token.claims.exp < now ∨
         token.claims.kind ≠ some token_type ∨
         token.claims.sub = none ∨ token.claims.user_id = none) :
    verify_token secret now token token_type = Except.error credentialsException := by
  cases hd : jwtDecode secret now token with
  | error err => simp only [verify_token, hd]
  | ok payload =>
      obtain ⟨hpl, hsg, hexp⟩ := jwtDecode_ok hd
      simp only [verify_token, hd, hpl]
      rcases h with h | h | h | h | h
      · exact absurd hsg h
      · exact absurd h hexp
      · rw [if_pos h]
      · by_cases hk : token.claims.kind ≠ some token_type
        · rw [if_pos hk]
        · rw [if_neg hk, if_pos (Or.inl h)]
      · by_cases hk : token.claims.kind ≠ some token_type
        · rw [if_pos hk]
        · rw [if_neg hk, if_pos (Or.inr h)]

theorem verify_token_error_uniform (secret : String) (now : Int) (token : Jwt)
    (token_type : String) :
    ∀ e, verify_token secret now token token_type = Except.error e →
      e = credentialsException := by
  intro e he
  cases hd : jwtDecode secret now token with
  | error err =>
      simp only [verify_token, hd, Except.error.injEq] at he
      exact he.symm
  | ok payload =>
      simp only [verify_token, hd] at he
      by_cases hk : payload.kind ≠ some token_type
      · rw [if_pos hk] at he
        exact (Except.error.inj he).symm
      · rw [if_neg hk] at he
        by_cases hn : payload.sub = none ∨ payload.user_id = none
        · rw [if_pos hn] at he
          exact (Except.error.inj he).symm
        · rw [if_neg hn] at he
          exact absurd he (by simp)

/-- Witness for C4 (amended) on the `cexCreate` payload, replacing its
client-supplied total 999 by 0. -/
theorem create_bill_spec_witness :
    cexCreatedBill.total_amount =
      (cexCreate.items.map (fun it => (it.quantity : ℚ) * it.unit_price)).sum ∧
    create_bill [1] { cexCreate with total_amount := 0 } =
      Except.ok (cexCreatedBill, cexCreatedItems) ∧
    cexCreatedBill.balance = cexCreatedBill.total_amount ∧
    cexCreatedBill.paid_amount = 0 ∧
    cexCreatedBill.status = cexCreate.status ∧
    ∀ it ∈ cexCreatedItems, it.total_price = (it.quantity : ℚ) * it.unit_price :=
  create_bill_spec [1] cexCreate 0 cexCreatedBill cexCreatedItems
    (by norm_num [create_bill, cexCreate, cexCreatedBill, cexCreatedItems])

/-- C6: `verify_token` checks the signature, the expiry, the kind and
the presence of subject and user id, and every failure — bad
signature, expired token, wrong kind (an access token checked against
expected kind refresh or vice versa), or missing subject/user id —
collapses to the single uniform invalid-credentials outcome, so the
caller cannot distinguish the causes from the result. -/
theorem verify_token_uniform_failure (secret : String) (now : Int) (token : Jwt)
    (token_type : String) :
    (∀ e, verify_token secret now token token_type = Except.error e →
      e = credentialsException) ∧
    ((token.signedWith ≠ secret ∨ token.claims.exp < now ∨
      token.claims.kind ≠ some token_type ∨
      token.claims.sub = none ∨ token.claims.user_id = none) →
      verify_token secret now token token_type = Except.error credentialsException) ∧
    (∀ s uid r d, verify_token secret now
        (create_access_token secret now s uid r d) "refresh" =
      Except.error credentialsException) ∧
    (∀ s uid r d, verify_token secret now
        (create_refresh_token secret now s uid r d) "access" =
      Except.error credentialsException) := by
  refine ⟨verify_token_error_uniform secret now token token_type,
          verify_token_fail secret now token token_type, ?_, ?_⟩
  · intro s uid r d
    refine verify_token_fail secret now _ "refresh" (Or.inr (Or.inr (Or.inl ?_)))
    intro hcontra
    simp only [create_access_token] at hcontra
    exact absurd (Option.some.inj hcontra) (by decide)
  · intro s uid r d
    refine verify_token_fail secret now _ "access" (Or.inr (Or.inr (Or.inl ?_)))
    intro hcontra
    simp only [create_refresh_token] at hcontra
    exact absurd (Option.some.inj hcontra) (by decide)

/-- Witness for C6: an otherwise well-formed access token whose expiry
(50) has passed at time 100 is rejected with the uniform
invalid-credentials outcome. -/
theorem verify_token_uniform_failure_witness :
    verify_token "secret" 100 staleToken "access" =
      Except.error credentialsException :=
  (verify_token_uniform_failure "secret" 100 staleToken "access").2.1
    (Or.inr (Or.inl (by decide)))

/-- C5 counterexample: a successful login returns the dict
`{"access_token", "token_type", "user"}` with a single access-kind
token — there is no `refresh_token` entry, so login does not return a
refresh token together with the access token. -/
theorem login_no_refresh_cex :
    AuthRouter.login toyCtx "secret" 30 [alice] 1000 "alice" "pw1" =
      Except.ok [("access_token", RespVal.token aliceToken),
                 ("token_type", RespVal.str "bearer"),
                 ("user", RespVal.user alice)] ∧
    List.lookup "refresh_token"
      [("access_token", RespVal.token aliceToken),
       ("token_type", RespVal.str "bearer"),
       ("user", RespVal.user alice)] = none ∧
    aliceToken.claims.kind = some "access" := by
  refine ⟨?_, by decide, by decide⟩
  decide

/-- C5 (amended): login locates the identity by username or email and
verifies the password; with an active identity it returns a single
access token (kind `access`) together with the user row under the
`user` key — no refresh token entry is present in the response
(`create_user_tokens`, which would also mint a refresh token, is never
called by the route); with correct credentials for an inactive
identity it is rejected as bad-request (400 "Inactive user"), not as
unauthenticated (401). -/
theorem login_spec (ctx : PasslibCtx) (secret : String) (mins : Int)
    (db : List User) (now : Int) (name pw : String) (u : User)
    (hfind : db.find? (fun v => v.username == name || v.email == name) = some u)
    (hverify : pwdVerify ctx pw u.password_hash = Except.ok true) :
    (u.is_active = true →
      AuthRouter.login ctx secret mins db now name pw =
        Except.ok [("access_token", RespVal.token (create_access_token secret now
            u.username u.id u.role.value (mins * 60))),
          ("token_type", RespVal.str "bearer"),
          ("user", RespVal.user u)] ∧
      (create_access_token secret now u.username u.id u.role.value
          (mins * 60)).claims.kind = some "access" ∧
      List.lookup "refresh_token"
        [("access_token", RespVal.token (create_access_token secret now
            u.username u.id u.role.value (mins * 60))),
         ("token_type", RespVal.str "bearer"),
         ("user", RespVal.user u)] = none) ∧
    (u.is_active = false →
      AuthRouter.login ctx secret mins db now name pw =
        Except.error (Failure.http ⟨400, "Inactive user"⟩)) := by
  have hauth : AuthRouter.authenticate_user ctx db name pw = Except.ok (some u) := by
    unfold AuthRouter.authenticate_user
    rw [hfind]
    show Except.map (fun ok => if ok = true then some u else none)
        (pwdVerify ctx pw u.password_hash) = Except.ok (some u)
    rw [hverify]
    simp [Except.map]
  constructor
  · intro hact
    refine ⟨?_, rfl, rfl⟩
    simp only [AuthRouter.login, hauth]
    rw [if_neg (not_not_intro hact)]
  · intro hinact
    simp only [AuthRouter.login, hauth]
    rw [if_pos (by simp [hinact])]

/-- Witness for C5 (amended): the toy store with an active and an
inactive copy of the same identity. -/
theorem login_spec_witness :
    (AuthRouter.login toyCtx "secret" 30 [alice] 1000 "alice" "pw1" =
      Except.ok [("access_token", RespVal.token (create_access_token "secret" 1000
          alice.username alice.id alice.role.value (30 * 60))),
        ("token_type", RespVal.str "bearer"),
        ("user", RespVal.user alice)] ∧
     (create_access_token "secret" 1000 alice.username alice.id alice.role.value
        (30 * 60)).claims.kind = some "access" ∧
     List.lookup "refresh_token"
       [("access_token", RespVal.token (create_access_token "secret" 1000
           alice.username alice.id alice.role.value (30 * 60))),
        ("token_type", RespVal.str "bearer"),
        ("user", RespVal.user alice)] = none) ∧
    AuthRouter.login toyCtx "secret" 30 [inactiveAlice] 1000 "alice" "pw1" =
      Except.error (Failure.http ⟨400, "Inactive user"⟩) :=
  ⟨(login_spec toyCtx "secret" 30 [alice] 1000 "alice" "pw1" alice
      (by decide) (by decide)).1 rfl,
   (login_spec toyCtx "secret" 30 [inactiveAlice] 1000 "alice" "pw1" inactiveAlice
      (by decide) (by decide)).2 rfl⟩

/-- C7 counterexample: with a Unicode-aware classification (Python's
`str.isupper` makes `'Ä'.isupper()` true), the endpoint accepts the
8-character new password "Ää1aaaaa" — which contains no uppercase
ASCII letter (`Char.isUpper` is exactly the ASCII class) — refuting
"succeeds only if … at least one uppercase ASCII letter". -/
theorem change_password_ascii_cex :
    PasswordRouter.change_password toyCtx pyUnicode 1000 alice unicodePwChange =
      Except.ok aliceAfterUnicode ∧
    unicodePwChange.new_password.data.any Char.isUpper = false := by
  decide

/-- C7 (amended): the self-service change-password flow succeeds only
if the supplied current password verifies against the stored hash, the
new password equals its confirmation, the new password does not verify
against the current hash (new ≠ current), and the new password has
length ≥ 8 with at least one uppercase character, one lowercase
character and one digit as classified by Python's Unicode-aware
`str.isupper`/`str.islower`/`str.isdigit` (these agree with the ASCII
classes on ASCII characters but also accept non-ASCII characters such
as 'Ä' or '²'); on success the password is rehashed,
`password_expires_at` is set to now + 90 days, `password_changed_at`
to now, and `force_password_change` is cleared. -/
theorem change_password_spec (ctx : PasslibCtx) (py : PyStrClass) (now : Int)
    (u : User) (pd : PasswordChangeRequest) (u2 : User)
    (h : PasswordRouter.change_password ctx py now u pd = Except.ok u2) :
    ctx.identify u.password_hash = true ∧
    ctx.bcryptVerify pd.current_password u.password_hash = true ∧
    pd.new_password = pd.confirm_password ∧
    ctx.bcryptVerify pd.new_password u.password_hash = false ∧
    8 ≤ pd.new_password.length ∧
    pd.new_password.data.any py.isupper = true ∧
    pd.new_password.data.any py.islower = true ∧
    pd.new_password.data.any py.isdigit = true ∧
    u2.password_hash = get_password_hash ctx pd.new_password ∧
    u2.password_expires_at = some (now + 90 * 86400) ∧
    u2.password_changed_at = now ∧
    u2.force_password_change = false := by
  unfold PasswordRouter.change_password at h
  cases hv : pwdVerify ctx pd.current_password u.password_hash with
  | error e =>
      simp only [hv] at h
      exact absurd h (by simp)
  | ok okCur =>
      obtain ⟨hid, hcur⟩ := pwdVerify_ok hv
      cases okCur with
      | false =>
          simp only [hv] at h
          simp at h
      | true =>
          simp only [hv] at h
          rw [if_neg (not_not_intro trivial)] at h
          by_cases hconf : pd.new_password ≠ pd.confirm_password
          · rw [if_pos hconf] at h
            exact absurd h (by simp)
          · rw [if_neg hconf] at h
            cases hv2 : pwdVerify ctx pd.new_password u.password_hash with
            | error e =>
                simp only [hv2] at h
                exact absurd h (by simp)
            | ok sameAsOld =>
                obtain ⟨-, hsame⟩ := pwdVerify_ok hv2
                cases sameAsOld with
                | true =>
                    simp only [hv2] at h
                    rw [if_pos trivial] at h
                    exact absurd h (by simp)
                | false =>
                    simp only [hv2] at h
                    rw [if_neg (by simp)] at h
                    by_cases hlen : pd.new_password.length < 8
                    · rw [if_pos hlen] at h
                      exact absurd h (by simp)
                    · rw [if_neg hlen] at h
                      by_cases hup : pd.new_password.data.any py.isupper = true
                      · rw [if_neg (not_not_intro hup)] at h
                        by_cases hlo : pd.new_password.data.any py.islower = true
                        · rw [if_neg (not_not_intro hlo)] at h
                          by_cases hdig : pd.new_password.data.any py.isdigit = true
                          · rw [if_neg (not_not_intro hdig)] at h
                            have hX := Except.ok.inj h
                            refine ⟨hid, hcur.symm, not_not.mp hconf, hsame.symm,
                              not_lt.mp hlen, hup, hlo, hdig, ?_, ?_, ?_, ?_⟩ <;>
                              rw [← hX] <;> rfl
                          · rw [if_pos hdig] at h
                            exact absurd h (by simp)
                        · rw [if_pos hlo] at h
                          exact absurd h (by simp)
                      · rw [if_pos hup] at h
                        exact absurd h (by simp)

/-- Witness for C7 (amended): `alice` changes "pw1" to "Newpass1" at
time 1000 under the concrete Unicode-aware classification. -/
theorem change_password_spec_witness :
    toyCtx.identify alice.password_hash = true ∧
    toyCtx.bcryptVerify samplePwChange.current_password alice.password_hash = true ∧
    samplePwChange.new_password = samplePwChange.confirm_password ∧
    toyCtx.bcryptVerify samplePwChange.new_password alice.password_hash = false ∧
    8 ≤ samplePwChange.new_password.length ∧
    samplePwChange.new_password.data.any pyUnicode.isupper = true ∧
    samplePwChange.new_password.data.any pyUnicode.islower = true ∧
    samplePwChange.new_password.data.any pyUnicode.isdigit = true ∧
    aliceAfterChange.password_hash = get_password_hash toyCtx samplePwChange.new_password ∧
    aliceAfterChange.password_expires_at = some (1000 + 90 * 86400) ∧
    aliceAfterChange.password_changed_at = 1000 ∧
    aliceAfterChange.force_password_change = false :=
  change_password_spec toyCtx pyUnicode 1000 alice samplePwChange aliceAfterChange
    (by decide)

/-- C8 counterexample: `verify_password` on the malformed hash string
"nothash" raises passlib's unidentifiable-hash error instead of
returning false. -/
theorem verify_password_malformed_cex :
    verify_password toyCtx "pw" "nothash" = Except.error PasslibError.unknownHash ∧
    verify_password toyCtx "pw" "nothash" ≠ Except.ok false := by
  decide

/-- C8 (amended): for every plain password and every malformed hash
string (one that no configured scheme identifies), `verify_password`
propagates passlib's `UnknownHashError` rather than returning false;
for an identifiable hash it returns the boolean comparison result
without error. -/
theorem verify_password_spec (ctx : PasslibCtx) (p h : String) :
    (ctx.identify h = false →
      verify_password ctx p h = Except.error PasslibError.unknownHash) ∧
    (ctx.identify h = true →
      verify_password ctx p h = Except.ok (ctx.bcryptVerify p h)) := by
  constructor
  · intro hid
    simp [verify_password, pwdVerify, hid]
  · intro hid
    simp [verify_password, pwdVerify, hid]

/-- Witness for C8 (amended): a well-formed toy hash verifies without
raising. -/
theorem verify_password_spec_witness :
    toyCtx.identify "$2b$12$pw1" = true ∧
    verify_password toyCtx "pw1" "$2b$12$pw1" =
      Except.ok (toyCtx.bcryptVerify "pw1" "$2b$12$pw1") :=
  ⟨by decide, (verify_password_spec toyCtx "pw1" "$2b$12$pw1").2 (by decide)⟩

/-- C10: the auth router's own change-password endpoint checks only
that the supplied current password verifies; for every new password
string — regardless of length, character classes or any confirmation —
it stores the new hash and leaves `password_expires_at`,
`password_changed_at` and `force_password_change` unchanged, bypassing
the strength, confirmation and expiry-reset rules of the primary
change-password flow. -/
theorem auth_change_password_bypass (ctx : PasslibCtx) (u : User)
    (cur new_password : String)
    (hok : pwdVerify ctx cur u.password_hash = Except.ok true) :
    AuthRouter.change_password ctx u cur new_password =
      Except.ok { u with password_hash := get_password_hash ctx new_password } ∧
    ({ u with password_hash := get_password_hash ctx new_password } : User).password_hash
      = get_password_hash ctx new_password ∧
    ({ u with password_hash := get_password_hash ctx new_password } : User).password_expires_at
      = u.password_expires_at ∧
    ({ u with password_hash := get_password_hash ctx new_password } : User).password_changed_at
      = u.password_changed_at ∧
    ({ u with password_hash := get_password_hash ctx new_password } : User).force_password_change
      = u.force_password_change := by
  refine ⟨?_, rfl, rfl, rfl, rfl⟩
  unfold AuthRouter.change_password
  simp only [hok]
  rw [if_neg (not_not_intro trivial)]

/-- Witness for C10: `alice` replaces her password by the one-character
string "x", which the primary flow would reject on every strength
rule. -/
theorem auth_change_password_bypass_witness :
    AuthRouter.change_password toyCtx alice "pw1" "x" =
      Except.ok { alice with password_hash := get_password_hash toyCtx "x" } ∧
    ({ alice with password_hash := get_password_hash toyCtx "x" } : User).password_hash
      = get_password_hash toyCtx "x" ∧
    ({ alice with password_hash := get_password_hash toyCtx "x" } : User).password_expires_at
      = alice.password_expires_at ∧
    ({ alice with password_hash := get_password_hash toyCtx "x" } : User).password_changed_at
      = alice.password_changed_at ∧
    ({ alice with password_hash := get_password_hash toyCtx "x" } : User).force_password_change
      = alice.force_password_change :=
  auth_change_password_bypass toyCtx alice "pw1" "x" (by decide)

end HMS
